import Mathlib

/-!
Verification of the sftp request server core.

This file shallowly embeds the Go sources of the repository:
`request-server.go` (the request-server dispatch loop, handle table and
path cleaning), `ls_unix.go` (errno translation and file-mode
conversion).  Packet and request definitions that the dispatch loop uses
live in repository files that are not available here; those few
definitions are modelled from the specification and are marked
`Modelled from the spec:` in their doc comments.

Machine integers (`uint32`, Go `int`) are modelled as `Nat`; every
operation used below (bitwise and/or, equality tests, increments) stays
within range, so no explicit wrap-around is needed.  Go maps are
modelled as functions into `Option`.
-/

/- ===============================================================
   Status codes and errno values
   =============================================================== -/

/-- Modelled from the spec: SFTP status codes (spec section 6), defined in
the repository packet definitions that are not part of `src/`. -/
def sshFxOk : Nat := 0

/-- Modelled from the spec: status code EOF = 1. -/
def sshFxEOF : Nat := 1

/-- Modelled from the spec: status code NO_SUCH_FILE = 2. -/
def sshFxNoSuchFile : Nat := 2

/-- Modelled from the spec: status code PERMISSION_DENIED = 3. -/
def sshFxPermissionDenied : Nat := 3

/-- Modelled from the spec: status code FAILURE = 4. -/
def sshFxFailure : Nat := 4

/-- Modelled from the spec: status code BAD_MESSAGE = 5. -/
def sshFxBadMessage : Nat := 5

/-- Modelled from the spec: the negotiated protocol version (3). -/
def sftpProtocolVersion : Nat := 3

/-- Linux errno value for ENOENT, used through Go `syscall.ENOENT`. -/
def ENOENT : Nat := 2

/-- Linux errno value for EPERM, used through Go `syscall.EPERM`. -/
def EPERM : Nat := 1

/-- Linux errno value for EACCES, used through Go `syscall.EACCES`. -/
def EACCES : Nat := 13

/-- Linux errno value for EBADF; `ls_unix.go` re-exports it as the
package constant `EBADF`. -/
def EBADF : Nat := 9

/-- `translateErrno` from `src/ls_unix.go`: translates a syscall error
number to an SFTP error code.  The Go `switch` on the errno value is
rendered as an if-chain; `case syscall.EACCES, syscall.EPERM` is the
two-valued third arm. -/
def translateErrno (errno : Nat) : Nat :=
  if errno = 0 then sshFxOk
  else if errno = ENOENT then sshFxNoSuchFile
  else if errno = EACCES ∨ errno = EPERM then sshFxPermissionDenied
  else sshFxFailure

/- ===============================================================
   File modes (src/ls_unix.go)
   =============================================================== -/

/-- Go `io/fs.ModeDir` (1 <<< 31). -/
def ModeDir : Nat := 2 ^ 31
/-- Go `io/fs.ModeSymlink` (1 <<< 27). -/
def ModeSymlink : Nat := 2 ^ 27
/-- Go `io/fs.ModeDevice` (1 <<< 26). -/
def ModeDevice : Nat := 2 ^ 26
/-- Go `io/fs.ModeNamedPipe` (1 <<< 25). -/
def ModeNamedPipe : Nat := 2 ^ 25
/-- Go `io/fs.ModeSocket` (1 <<< 24). -/
def ModeSocket : Nat := 2 ^ 24
/-- Go `io/fs.ModeSetuid` (1 <<< 23). -/
def ModeSetuid : Nat := 2 ^ 23
/-- Go `io/fs.ModeSetgid` (1 <<< 22). -/
def ModeSetgid : Nat := 2 ^ 22
/-- Go `io/fs.ModeCharDevice` (1 <<< 21). -/
def ModeCharDevice : Nat := 2 ^ 21
/-- Go `io/fs.ModeSticky` (1 <<< 20). -/
def ModeSticky : Nat := 2 ^ 20
/-- Go `io/fs.ModeIrregular` (1 <<< 19). -/
def ModeIrregular : Nat := 2 ^ 19
/-- Go `io/fs.ModePerm` (0o777). -/
def ModePerm : Nat := 0o777
/-- Go `io/fs.ModeType`: the union of all file-type mode bits. -/
def ModeType : Nat :=
  ModeDir ||| ModeSymlink ||| ModeNamedPipe ||| ModeSocket |||
  ModeDevice ||| ModeCharDevice ||| ModeIrregular

/-- POSIX `S_IFMT` file-type mask (0xf000); the repository defines this
package constant for all platforms. -/
def S_IFMT : Nat := 0xf000
/-- `syscall.S_IFBLK` (block device). -/
def S_IFBLK : Nat := 0x6000
/-- `syscall.S_IFCHR` (character device). -/
def S_IFCHR : Nat := 0x2000
/-- `syscall.S_IFDIR` (directory). -/
def S_IFDIR : Nat := 0x4000
/-- `syscall.S_IFIFO` (named pipe). -/
def S_IFIFO : Nat := 0x1000
/-- `syscall.S_IFLNK` (symbolic link). -/
def S_IFLNK : Nat := 0xa000
/-- `syscall.S_IFREG` (regular file). -/
def S_IFREG : Nat := 0x8000
/-- `syscall.S_IFSOCK` (socket). -/
def S_IFSOCK : Nat := 0xc000
/-- `syscall.S_ISUID` (setuid bit, 0o4000). -/
def S_ISUID : Nat := 0o4000
/-- `syscall.S_ISGID` (setgid bit, 0o2000). -/
def S_ISGID : Nat := 0o2000
/-- `syscall.S_ISVTX` (sticky bit, 0o1000). -/
def S_ISVTX : Nat := 0o1000

/-- `isRegular` from `src/ls_unix.go`. -/
def isRegular (mode : Nat) : Bool :=
  mode &&& S_IFMT == S_IFREG

/-- `toFileMode` from `src/ls_unix.go`: converts sftp filemode bits to
the `fs.FileMode` specification.  The Go `switch mode & S_IFMT` is an
if-chain over the (pairwise distinct) type values; a value matching no
case adds nothing. -/
def toFileMode (mode : Nat) : Nat :=
  let fm := mode &&& 0o777
  let t := mode &&& S_IFMT
  let fm :=
    if t = S_IFBLK then fm ||| ModeDevice
    else if t = S_IFCHR then fm ||| (ModeDevice ||| ModeCharDevice)
    else if t = S_IFDIR then fm ||| ModeDir
    else if t = S_IFIFO then fm ||| ModeNamedPipe
    else if t = S_IFLNK then fm ||| ModeSymlink
    else if t = S_IFREG then fm -- nothing to do
    else if t = S_IFSOCK then fm ||| ModeSocket
    else fm
  let fm := if mode &&& S_ISUID ≠ 0 then fm ||| ModeSetuid else fm
  let fm := if mode &&& S_ISGID ≠ 0 then fm ||| ModeSetgid else fm
  let fm := if mode &&& S_ISVTX ≠ 0 then fm ||| ModeSticky else fm
  fm

/-- `fromFileMode` from `src/ls_unix.go`: converts from the `fs.FileMode`
specification to sftp filemode bits.  The Go `switch mode & fs.ModeType`
is an if-chain in source order. -/
def fromFileMode (mode : Nat) : Nat :=
  let ret := mode &&& ModePerm
  let t := mode &&& ModeType
  let ret :=
    if t = ModeDevice ||| ModeCharDevice then ret ||| S_IFCHR
    else if t = ModeDevice then ret ||| S_IFBLK
    else if t = ModeDir then ret ||| S_IFDIR
    else if t = ModeNamedPipe then ret ||| S_IFIFO
    else if t = ModeSymlink then ret ||| S_IFLNK
    else if t = 0 then ret ||| S_IFREG
    else if t = ModeSocket then ret ||| S_IFSOCK
    else ret
  let ret := if mode &&& ModeSetuid ≠ 0 then ret ||| S_ISUID else ret
  let ret := if mode &&& ModeSetgid ≠ 0 then ret ||| S_ISGID else ret
  let ret := if mode &&& ModeSticky ≠ 0 then ret ||| S_ISVTX else ret
  ret

/-- A `fs.FileMode` assembled from permission bits, the three id bits
and one file-type value, as described by the specification. -/
def mkGoMode (p : Nat) (su sg st : Bool) (t : Nat) : Nat :=
  p ||| (cond su ModeSetuid 0) ||| (cond sg ModeSetgid 0) |||
    (cond st ModeSticky 0) ||| t

/-- A POSIX mode word assembled from permission bits, the three id bits
and one `S_IFMT` file-type value. -/
def mkUnixMode (p : Nat) (su sg st : Bool) (t : Nat) : Nat :=
  p ||| (cond su S_ISUID 0) ||| (cond sg S_ISGID 0) |||
    (cond st S_ISVTX 0) ||| t

/-- The `fs.FileMode` file types supported by `fromFileMode`. -/
def supportedGoTypes : List Nat :=
  [0, ModeDir, ModeSymlink, ModeDevice, ModeDevice ||| ModeCharDevice,
   ModeNamedPipe, ModeSocket]

/-- The `S_IFMT` file types supported by `toFileMode`. -/
def supportedUnixTypes : List Nat :=
  [S_IFREG, S_IFDIR, S_IFLNK, S_IFBLK, S_IFCHR, S_IFIFO, S_IFSOCK]

/-- The unix file-type value that `fromFileMode` adds for each supported
`fs.FileMode` file type (read off its `switch`). -/
def goTypeToUnix (t : Nat) : Nat :=
  if t = ModeDevice ||| ModeCharDevice then S_IFCHR
  else if t = ModeDevice then S_IFBLK
  else if t = ModeDir then S_IFDIR
  else if t = ModeNamedPipe then S_IFIFO
  else if t = ModeSymlink then S_IFLNK
  else if t = 0 then S_IFREG
  else if t = ModeSocket then S_IFSOCK
  else 0

/-- The `fs.FileMode` file-type value that `toFileMode` adds for each
supported `S_IFMT` file type (read off its `switch`). -/
def unixTypeToGo (t : Nat) : Nat :=
  if t = S_IFBLK then ModeDevice
  else if t = S_IFCHR then ModeDevice ||| ModeCharDevice
  else if t = S_IFDIR then ModeDir
  else if t = S_IFIFO then ModeNamedPipe
  else if t = S_IFLNK then ModeSymlink
  else if t = S_IFREG then 0
  else if t = S_IFSOCK then ModeSocket
  else 0

/- ===============================================================
   Decimal rendering of handles (Go strconv.Itoa on non-negative int)
   =============================================================== -/

/-- The numeric value of a decimal digit character. -/
def charDigit (c : Char) : Nat := c.toNat - 48

/-- The little-endian decimal digits of `n`; the first argument is
recursion fuel, sufficient whenever `n ≤ fuel`. -/
def natDigits : Nat → Nat → List Nat
  | 0, _ => []
  | fuel + 1, n => if n = 0 then [] else n % 10 :: natDigits fuel (n / 10)

/-- Go `strconv.Itoa` restricted to non-negative values: the decimal
digit string of `n`, most significant digit first. -/
def itoa (n : Nat) : String :=
  if n = 0 then ("0")
  else String.mk (((natDigits n n).map Nat.digitChar).reverse)

/-- Decimal parsing, used only to invert `itoa`. -/
def atoi (s : String) : Nat :=
  Nat.ofDigits 10 ((s.data.map charDigit).reverse)

/- ===============================================================
   Lexical path cleaning (request-server.go cleanPath; the repository
   calls Go path/filepath.Clean and filepath.ToSlash)
   =============================================================== -/

/-- Split a character list at `'/'` separators; a separator at either
end or two adjacent separators yield empty elements. -/
def splitSlash : List Char → List (List Char)
  | [] => [[]]
  | c :: rest =>
    if c = '/' then [] :: splitSlash rest
    else
      match splitSlash rest with
      | [] => [[c]]
      | e :: es => (c :: e) :: es

/-- The element loop of Go `path/filepath.Clean`, in functional form:
`stk` is the output path elements, most recent first.  Empty and `"."`
elements are dropped; `".."` pops a non-`".."` element, is dropped at
the root of a rooted path, and is kept otherwise; any other element is
pushed.  This mirrors the `lazybuf` loop of the Go source, where
`dotdot` marks the end of the leading `".."` run. -/
def cleanStack (rooted : Bool) : List (List Char) → List (List Char) → List (List Char)
  | stk, [] => stk
  | stk, e :: es =>
    if e = [] ∨ e = ['.'] then cleanStack rooted stk es
    else if e = ['.', '.'] then
      match stk with
      | [] =>
        if rooted then cleanStack rooted [] es
        else cleanStack rooted [['.', '.']] es
      | top :: rest =>
        if top = ['.', '.'] then cleanStack rooted (e :: top :: rest) es
        else cleanStack rooted rest es
    else cleanStack rooted (e :: stk) es

/-- Join path elements with `'/'`. -/
def intercalateSlash : List (List Char) → List Char
  | [] => []
  | [e] => e
  | e :: es => e ++ '/' :: intercalateSlash es

/-- Go `path/filepath.Clean` on a forward-slash platform: shortest
lexically equivalent path (repeated separators, `"."` elements and
resolvable `".."` elements removed; `".."` at the root of a rooted path
dropped); the empty result becomes `"."`. -/
def filepathClean (path : String) : String :=
  match path.data with
  | [] => "."
  | c :: cs =>
    let rooted := c = '/'
    let stk := (cleanStack rooted [] (splitSlash (c :: cs))).reverse
    let out := intercalateSlash stk
    if rooted then String.mk ('/' :: out)
    else if out = [] then "."
    else String.mk out

/-- Go `path/filepath.ToSlash`: replaces the platform separator by
`'/'`; on a forward-slash platform the separator is already `'/'`, so
this is the identity. -/
def toSlash (p : String) : String := p

/-- Go `strings.HasPrefix`. -/
def hasPfx (s pre : String) : Bool := pre.data.isPrefixOf s.data

/-- `cleanPath` from `src/request-server.go`: lexically clean the path
and root it at `"/"` when the cleaned path is not already absolute. -/
def cleanPath (path : String) : String :=
  let cleanSlashPath := toSlash (filepathClean path)
  if !(hasPfx cleanSlashPath ("/")) then "/" ++ cleanSlashPath
  else cleanSlashPath

/- ===============================================================
   Protocol data model
   =============================================================== -/

/-- Modelled from the spec: the sparse file-attributes record (spec
section 3); the `flags` word gates which fields are meaningful. -/
structure FileAttrs where
  flags : Nat
  size : Nat
  uid : Nat
  gid : Nat
  mode : Nat
  atime : Nat
  mtime : Nat
deriving DecidableEq, Repr

/-- Modelled from the spec: the all-empty attributes value that
`cleanPacketPath` attaches to a REALPATH name reply. -/
def emptyFileStat : FileAttrs := ⟨0, 0, 0, 0, 0, 0, 0⟩

/-- One entry of a NAME reply: filename, long-form listing, attributes. -/
structure sshFxpNameAttr where
  Name : String
  LongName : String
  Attrs : FileAttrs
deriving DecidableEq, Repr

/-- A Go `error` value as the server observes it: a syscall errno, the
distinguished `io.EOF`, or any other error carrying only a message. -/
inductive GoError where
  | errno (e : Nat)
  | eof
  | other (msg : String)
deriving DecidableEq, Repr

/-- The message text of an error (`err.Error()` in Go); the errno text
is a stand-in for the platform's errno string table. -/
def GoError.message : GoError → String
  | .errno e => "errno " ++ itoa e
  | .eof => "EOF"
  | .other m => m

/-- Modelled from the spec: the `Request` record handed to the
filesystem handlers — method name, path, target (for rename/symlink),
flags, attrs (spec section 6) — together with the per-request packet
data set by `update` and the open resource whose `close` outcome the
request owns (spec section 3, OpenFile).  `closeResult` is the error
that closing the underlying filesystem resource returns, `none` on
success. -/
structure Request where
  Method : String
  Filepath : String
  Target : String
  Flags : Nat
  Attrs : FileAttrs
  pktId : Nat
  Offset : Nat
  Length : Nat
  Data : List Nat
  closeResult : Option GoError
deriving DecidableEq, Repr

/-- Modelled from the spec: closing a request's underlying filesystem
resource reports the resource's close outcome. -/
def Request.close (r : Request) : Option GoError := r.closeResult

/-- Modelled from the spec: the four server request handlers (spec
section 6): `FileRead(req) -> reader_or_error`,
`FileWrite(req) -> writer_or_error`, `FileCmd(req) -> status_error`,
`FileList(req) -> listerAt_or_error`.  Read data is a byte list; a
lister is a list of name entries. -/
structure Handlers where
  FileGet : Request → Except GoError (List Nat)
  FilePut : Request → Except GoError Unit
  FileCmd : Request → Except GoError Unit
  FileList : Request → Except GoError (List sshFxpNameAttr)

/-- The well-typed request packets the `packetWorker` type switch
recognizes, one constructor per Go packet struct.  `openPkt` and
`opendirPkt` implement `isOpener`; `readPkt`, `writePkt` and
`readdirPkt` implement `hasHandle` (as do the fstat/fsetstat packets,
matched earlier); the path-carrying packets implement `hasPath`. -/
inductive requestPacket where
  | initPkt (version : Nat)
  | closePkt (id : Nat) (handle : String)
  | realpathPkt (id : Nat) (path : String)
  | openPkt (id : Nat) (path : String) (pflags : Nat) (attrs : FileAttrs)
  | opendirPkt (id : Nat) (path : String)
  | fstatPkt (id : Nat) (handle : String)
  | fsetstatPkt (id : Nat) (handle : String) (flags : Nat) (attrs : FileAttrs)
  | readPkt (id : Nat) (handle : String) (offset : Nat) (len : Nat)
  | writePkt (id : Nat) (handle : String) (offset : Nat) (data : List Nat)
  | readdirPkt (id : Nat) (handle : String)
  | statPkt (id : Nat) (path : String)
  | lstatPkt (id : Nat) (path : String)
  | setstatPkt (id : Nat) (path : String) (flags : Nat) (attrs : FileAttrs)
  | removePkt (id : Nat) (path : String)
  | mkdirPkt (id : Nat) (path : String) (attrs : FileAttrs)
  | rmdirPkt (id : Nat) (path : String)
  | renamePkt (id : Nat) (oldpath newpath : String)
  | readlinkPkt (id : Nat) (path : String)
  | symlinkPkt (id : Nat) (targetpath linkpath : String)
deriving DecidableEq, Repr

/-- The response packets the request server emits, one constructor per
reply shape (spec sections 3 and 6). -/
inductive responsePacket where
  | version (v : Nat)
  | status (id : Nat) (code : Nat) (msg : String)
  | data (id : Nat) (payload : List Nat)
  | handle (id : Nat) (h : String)
  | name (id : Nat) (names : List sshFxpNameAttr)
  | attrs (id : Nat) (a : FileAttrs)
  | extendedReply (id : Nat) (payload : List Nat)
deriving DecidableEq, Repr

/-- The reply discriminator. -/
inductive PacketKind where
  | version | status | data | handle | name | attrs | extendedReply
deriving DecidableEq, Repr

/-- The discriminator of a response packet. -/
def kindOf : responsePacket → PacketKind
  | .version _ => .version
  | .status _ _ _ => .status
  | .data _ _ => .data
  | .handle _ _ => .handle
  | .name _ _ => .name
  | .attrs _ _ => .attrs
  | .extendedReply _ _ => .extendedReply

/-- Whether a reply kind is one of the six request-reply shapes
(status, data, handle, name, attrs, extended-reply). -/
def isStdKind : PacketKind → Bool
  | .version => false
  | _ => true

/-- The status code of a reply, when it is a status reply. -/
def statusCodeOf : responsePacket → Option Nat
  | .status _ code _ => some code
  | _ => none

/-- Modelled from the spec: `statusFromError` builds the status reply
for a request id from a Go error: no error is OK, `io.EOF` is EOF, a
syscall errno is translated by `translateErrno` (spec section 7, as in
`translateSyscallError` of `src/ls_unix.go`), anything else is FAILURE;
the message text of the error is carried in the reply. -/
def statusFromError (id : Nat) (err : Option GoError) : responsePacket :=
  match err with
  | none => .status id sshFxOk ("")
  | some .eof => .status id sshFxEOF (GoError.eof.message)
  | some (.errno e) => .status id (translateErrno e) ((GoError.errno e).message)
  | some (.other m) => .status id sshFxFailure ((GoError.other m).message)

/-- Modelled from the spec: `requestFromPacket` builds the `Request`
for a packet — method name, path, target, flags, attrs (spec section
6).  Only packets carrying a path reach it in the worker. -/
def requestFromPacket : requestPacket → Request
  | .openPkt id path pflags attrs =>
      ⟨"Open", path, "", pflags, attrs, id, 0, 0, [], none⟩
  | .opendirPkt id path =>
      ⟨"List", path, "", 0, emptyFileStat, id, 0, 0, [], none⟩
  | .statPkt id path =>
      ⟨"Stat", path, "", 0, emptyFileStat, id, 0, 0, [], none⟩
  | .lstatPkt id path =>
      ⟨"Lstat", path, "", 0, emptyFileStat, id, 0, 0, [], none⟩
  | .setstatPkt id path flags attrs =>
      ⟨"Setstat", path, "", flags, attrs, id, 0, 0, [], none⟩
  | .removePkt id path =>
      ⟨"Remove", path, "", 0, emptyFileStat, id, 0, 0, [], none⟩
  | .mkdirPkt id path attrs =>
      ⟨"Mkdir", path, "", 0, attrs, id, 0, 0, [], none⟩
  | .rmdirPkt id path =>
      ⟨"Rmdir", path, "", 0, emptyFileStat, id, 0, 0, [], none⟩
  | .renamePkt id oldpath newpath =>
      ⟨"Rename", oldpath, newpath, 0, emptyFileStat, id, 0, 0, [], none⟩
  | .readlinkPkt id path =>
      ⟨"Readlink", path, "", 0, emptyFileStat, id, 0, 0, [], none⟩
  | .symlinkPkt id targetpath linkpath =>
      ⟨"Symlink", targetpath, linkpath, 0, emptyFileStat, id, 0, 0, [], none⟩
  | _ => ⟨"", "", "", 0, emptyFileStat, 0, 0, 0, [], none⟩

/-- Modelled from the spec: `Request.update` refreshes a stored request
from a handle-bearing packet before handling — the method becomes the
handler dispatch name (Get for READ, Put for WRITE, List for READDIR,
spec section 6) and the packet's id and data are taken over. -/
def updateRequest (r : Request) : requestPacket → Request
  | .readPkt id _ offset len =>
      { r with Method := "Get", pktId := id, Offset := offset, Length := len }
  | .writePkt id _ offset data =>
      { r with Method := "Put", pktId := id, Offset := offset,
               Length := data.length, Data := data }
  | .readdirPkt id _ =>
      { r with Method := "List", pktId := id }
  | _ => r

/-- Modelled from the spec: `Request.handle` dispatches a request to
the filesystem handlers by method name and builds the reply (spec
sections 4.4 and 6): Get returns data, Put and the command methods
return status, List returns a name list, Stat/Lstat return the
attributes of the listed entry, Readlink returns a single-name reply;
every handler error becomes a status reply via `statusFromError`. -/
def Request.handle (r : Request) (h : Handlers) : responsePacket :=
  match r.Method with
  | "Get" =>
    match h.FileGet r with
    | .ok d => .data r.pktId d
    | .error e => statusFromError r.pktId (some e)
  | "Put" =>
    match h.FilePut r with
    | .ok _ => statusFromError r.pktId none
    | .error e => statusFromError r.pktId (some e)
  | "Setstat" | "Rename" | "Rmdir" | "Mkdir" | "Remove" | "Symlink" =>
    match h.FileCmd r with
    | .ok _ => statusFromError r.pktId none
    | .error e => statusFromError r.pktId (some e)
  | "List" =>
    match h.FileList r with
    | .ok entries => .name r.pktId entries
    | .error e => statusFromError r.pktId (some e)
  | "Stat" | "Lstat" =>
    match h.FileList r with
    | .ok entries => .attrs r.pktId ((entries.head?.map sshFxpNameAttr.Attrs).getD emptyFileStat)
    | .error e => statusFromError r.pktId (some e)
  | "Readlink" =>
    match h.FileList r with
    | .ok entries => .name r.pktId entries
    | .error e => statusFromError r.pktId (some e)
  | _ => statusFromError r.pktId (some (.other ("unexpected method")))

/- ===============================================================
   The request server (src/request-server.go)
   =============================================================== -/

/-- The mutable state of a `RequestServer`: the open-request table
(a Go map from handle strings to `Request` values, modelled as a
function into `Option`) and the handle counter. -/
structure RSState where
  openRequests : String → Option Request
  handleCount : Nat

/-- The state `NewRequestServer` creates: empty table, zero counter. -/
def initialRSState : RSState := ⟨fun _ => none, 0⟩

/-- `nextRequest` from `src/request-server.go`: increment the handle
counter, render it in decimal, store the request under the new handle
and return the handle. -/
def nextRequest (rs : RSState) (r : Request) : String × RSState :=
  let newCount := rs.handleCount + 1
  let handle := itoa newCount
  (handle,
   ⟨fun k => if k = handle then some r else rs.openRequests k, newCount⟩)

/-- `getRequest` from `src/request-server.go`: look the handle up in
the table (returning a copy of the stored request). -/
def getRequest (rs : RSState) (handle : String) : Option Request :=
  rs.openRequests handle

/-- `closeRequest` from `src/request-server.go`: when the handle is in
the table, close the stored request's resource — discarding the close
outcome — and delete the handle; otherwise do nothing. -/
def closeRequest (rs : RSState) (handle : String) : RSState :=
  match rs.openRequests handle with
  | some r =>
    -- r.close() is called and its error ignored
    let _ := r.close
    ⟨fun k => if k = handle then none else rs.openRequests k, rs.handleCount⟩
  | none => rs

/-- `cleanPacketPath` from `src/request-server.go`: the REALPATH reply,
a single-name packet whose name and long name are the cleaned path with
empty attributes. -/
def cleanPacketPath (id : Nat) (path0 : String) : responsePacket :=
  let path := cleanPath path0
  .name id [⟨path, path, emptyFileStat⟩]

/-- The per-packet body of `packetWorker` from `src/request-server.go`:
one arm per case of its type switch, in source order; returns the new
server state and the reply packet that is sent.  In the `hasHandle`
case the Go code updates the copied request from the packet before the
table-hit check; the copy is discarded on a miss, so the miss reply is
the EBADF status either way. -/
def packetWorkerStep (h : Handlers) (rs : RSState) :
    requestPacket → RSState × responsePacket
  | .initPkt _ => (rs, .version sftpProtocolVersion)
  | .closePkt id handle =>
    (closeRequest rs handle, statusFromError id none)
  | .realpathPkt id path => (rs, cleanPacketPath id path)
  | .openPkt id path pflags attrs =>
    let (handle, rs') := nextRequest rs (requestFromPacket (.openPkt id path pflags attrs))
    (rs', .handle id handle)
  | .opendirPkt id path =>
    let (handle, rs') := nextRequest rs (requestFromPacket (.opendirPkt id path))
    (rs', .handle id handle)
  | .fstatPkt id handle =>
    match getRequest rs handle with
    | none => (rs, statusFromError id (some (.errno EBADF)))
    | some request =>
      (rs, (requestFromPacket (.statPkt id request.Filepath)).handle h)
  | .fsetstatPkt id handle flags attrs =>
    match getRequest rs handle with
    | none => (rs, statusFromError id (some (.errno EBADF)))
    | some request =>
      (rs, (requestFromPacket (.setstatPkt id request.Filepath flags attrs)).handle h)
  | .readPkt id handle offset len =>
    match getRequest rs handle with
    | none => (rs, statusFromError id (some (.errno EBADF)))
    | some request =>
      (rs, (updateRequest request (.readPkt id handle offset len)).handle h)
  | .writePkt id handle offset data =>
    match getRequest rs handle with
    | none => (rs, statusFromError id (some (.errno EBADF)))
    | some request =>
      (rs, (updateRequest request (.writePkt id handle offset data)).handle h)
  | .readdirPkt id handle =>
    match getRequest rs handle with
    | none => (rs, statusFromError id (some (.errno EBADF)))
    | some request =>
      (rs, (updateRequest request (.readdirPkt id handle)).handle h)
  | .statPkt id path => (rs, (requestFromPacket (.statPkt id path)).handle h)
  | .lstatPkt id path => (rs, (requestFromPacket (.lstatPkt id path)).handle h)
  | .setstatPkt id path flags attrs =>
    (rs, (requestFromPacket (.setstatPkt id path flags attrs)).handle h)
  | .removePkt id path => (rs, (requestFromPacket (.removePkt id path)).handle h)
  | .mkdirPkt id path attrs =>
    (rs, (requestFromPacket (.mkdirPkt id path attrs)).handle h)
  | .rmdirPkt id path => (rs, (requestFromPacket (.rmdirPkt id path)).handle h)
  | .renamePkt id oldpath newpath =>
    (rs, (requestFromPacket (.renamePkt id oldpath newpath)).handle h)
  | .readlinkPkt id path =>
    (rs, (requestFromPacket (.readlinkPkt id path)).handle h)
  | .symlinkPkt id targetpath linkpath =>
    (rs, (requestFromPacket (.symlinkPkt id targetpath linkpath)).handle h)

/-- The `packetWorker` loop over a queue of packets: process each in
order, emitting one reply per packet. -/
def packetWorkerRun (h : Handlers) (rs : RSState) :
    List requestPacket → RSState × List responsePacket
  | [] => (rs, [])
  | pkt :: rest =>
    let (rs', rpkt) := packetWorkerStep h rs pkt
    let (rsf, rpkts) := packetWorkerRun h rs' rest
    (rsf, rpkt :: rpkts)

/-- The handle carried by a reply, when it is a HANDLE reply. -/
def handleOfReply : responsePacket → Option String
  | .handle _ hdl => some hdl
  | _ => none

/-- The handles carried by the HANDLE replies of a worker run. -/
def issuedHandles (h : Handlers) (rs : RSState) (pkts : List requestPacket) :
    List String :=
  (packetWorkerRun h rs pkts).2.filterMap handleOfReply

/-- The request id carried by a packet (Go `pkt.id()`; `INIT` carries
none and yields 0). -/
def pktId : requestPacket → Nat
  | .initPkt _ => 0
  | .closePkt id _ => id
  | .realpathPkt id _ => id
  | .openPkt id _ _ _ => id
  | .opendirPkt id _ => id
  | .fstatPkt id _ => id
  | .fsetstatPkt id _ _ _ => id
  | .readPkt id _ _ _ => id
  | .writePkt id _ _ _ => id
  | .readdirPkt id _ => id
  | .statPkt id _ => id
  | .lstatPkt id _ => id
  | .setstatPkt id _ _ _ => id
  | .removePkt id _ => id
  | .mkdirPkt id _ _ => id
  | .rmdirPkt id _ => id
  | .renamePkt id _ _ => id
  | .readlinkPkt id _ => id
  | .symlinkPkt id _ _ => id

/-- The handle-bearing request packets other than CLOSE (the
`sshFxpFstatPacket`, `sshFxpFsetstatPacket` and `hasHandle` arms of the
worker switch), with their id and handle. -/
def packetHandleInfo : requestPacket → Option (Nat × String)
  | .fstatPkt id handle => some (id, handle)
  | .fsetstatPkt id handle _ _ => some (id, handle)
  | .readPkt id handle _ _ => some (id, handle)
  | .writePkt id handle _ _ => some (id, handle)
  | .readdirPkt id handle => some (id, handle)
  | _ => none

/-- The `isOpener` packets (OPEN and OPENDIR), with their id. -/
def packetOpenerInfo : requestPacket → Option Nat
  | .openPkt id _ _ _ => some id
  | .opendirPkt id _ => some id
  | _ => none

/-- Whether a packet is the INIT packet. -/
def isInitPkt : requestPacket → Bool
  | .initPkt _ => true
  | _ => false

/-- The reply shapes each request type can produce (spec sections 3 and
4.4): INIT is answered by VERSION; CLOSE, FSETSTAT, WRITE and the
path-command packets by status; REALPATH by a name reply; OPEN/OPENDIR
by a handle; FSTAT/STAT/LSTAT by attrs or status; READ by data or
status; READDIR and READLINK by a name list or status. -/
def expectedKinds : requestPacket → List PacketKind
  | .initPkt _ => [.version]
  | .closePkt _ _ => [.status]
  | .realpathPkt _ _ => [.name]
  | .openPkt _ _ _ _ => [.handle]
  | .opendirPkt _ _ => [.handle]
  | .fstatPkt _ _ => [.attrs, .status]
  | .fsetstatPkt _ _ _ _ => [.status]
  | .readPkt _ _ _ _ => [.data, .status]
  | .writePkt _ _ _ _ => [.status]
  | .readdirPkt _ _ => [.name, .status]
  | .statPkt _ _ => [.attrs, .status]
  | .lstatPkt _ _ => [.attrs, .status]
  | .setstatPkt _ _ _ _ => [.status]
  | .removePkt _ _ => [.status]
  | .mkdirPkt _ _ _ => [.status]
  | .rmdirPkt _ _ => [.status]
  | .renamePkt _ _ _ => [.status]
  | .readlinkPkt _ _ => [.name, .status]
  | .symlinkPkt _ _ _ => [.status]

/- ===============================================================
   Concrete fixtures used by witnesses and counterexamples
   =============================================================== -/

/-- A concrete set of handlers whose operations all fail; used only to
instantiate theorems at concrete inputs. -/
def noopHandlers : Handlers :=
  ⟨fun _ => .error (.other ("no reader")),
   fun _ => .error (.other ("no writer")),
   fun _ => .error (.other ("no cmd")),
   fun _ => .error (.other ("no lister"))⟩

/-- A concrete open request whose underlying resource fails to close. -/
def badCloseRequest : Request :=
  ⟨"Open", "/tmp/x", "", 0, emptyFileStat, 7, 0, 0, [], some (.errno 5)⟩

/-- A concrete server state holding `badCloseRequest` under handle
`"1"`. -/
def stateWithBadClose : RSState :=
  ⟨fun k => if k = "1" then some badCloseRequest else none, 1⟩

/- ===============================================================
   Theorems
   =============================================================== -/

theorem and_small_mask (p M : Nat) (hp : p < 512) (hM : M &&& 511 = 0) :
    p &&& M = 0 := by
  apply Nat.eq_of_testBit_eq
  intro i
  simp only [Nat.testBit_land, Nat.zero_testBit]
  by_cases hi : i < 9
  · have hMi : M.testBit i = false := by
      have h2 : (M &&& 511).testBit i = false := by simp [hM]
      have h511 : (511 : Nat) = 2 ^ 9 - 1 := by norm_num
      rw [Nat.testBit_land, h511, Nat.testBit_two_pow_sub_one] at h2
      simpa [hi] using h2
    simp [hMi]
  · have hpi : p.testBit i = false := by
      apply Nat.testBit_lt_two_pow
      calc p < 512 := hp
        _ ≤ 2 ^ i := by
          have h9 : (512 : Nat) = 2 ^ 9 := by norm_num
          rw [h9]
          exact Nat.pow_le_pow_right (by norm_num) (by omega)
    simp [hpi]

theorem and_perm_small (p : Nat) (hp : p < 512) : p &&& 511 = p := by
  have h511 : (511 : Nat) = 2 ^ 9 - 1 := by norm_num
  rw [h511]
  exact Nat.and_pow_two_sub_one_of_lt_two_pow (by simpa using hp)

theorem cond_and (b : Bool) (x m : Nat) : (cond b x 0) &&& m = cond b (x &&& m) 0 := by
  cases b <;> simp

theorem mkGoMode_and_perm (p : Nat) (su sg st : Bool) (t : Nat)
    (hp : p < 512) (ht : t &&& ModePerm = 0) :
    mkGoMode p su sg st t &&& ModePerm = p := by
  have hPerm : p &&& ModePerm = p := by
    simpa [ModePerm] using and_perm_small p hp
  simp only [mkGoMode, Nat.and_distrib_right, cond_and, hPerm, ht,
    (show ModeSetuid &&& ModePerm = 0 from by decide),
    (show ModeSetgid &&& ModePerm = 0 from by decide),
    (show ModeSticky &&& ModePerm = 0 from by decide),
    Bool.cond_self, Nat.or_zero, Nat.zero_or]

theorem mkGoMode_and_type (p : Nat) (su sg st : Bool) (t : Nat)
    (hp : p < 512) (ht : t &&& ModeType = t) :
    mkGoMode p su sg st t &&& ModeType = t := by
  have hp0 : p &&& ModeType = 0 := and_small_mask p ModeType hp (by decide)
  simp only [mkGoMode, Nat.and_distrib_right, cond_and, hp0, ht,
    (show ModeSetuid &&& ModeType = 0 from by decide),
    (show ModeSetgid &&& ModeType = 0 from by decide),
    (show ModeSticky &&& ModeType = 0 from by decide),
    Bool.cond_self, Nat.or_zero, Nat.zero_or]

theorem mkGoMode_and_setuid (p : Nat) (su sg st : Bool) (t : Nat)
    (hp : p < 512) (ht : t &&& ModeSetuid = 0) :
    mkGoMode p su sg st t &&& ModeSetuid = cond su ModeSetuid 0 := by
  have hp0 : p &&& ModeSetuid = 0 := and_small_mask p ModeSetuid hp (by decide)
  simp only [mkGoMode, Nat.and_distrib_right, cond_and, hp0, ht,
    (show ModeSetuid &&& ModeSetuid = ModeSetuid from by decide),
    (show ModeSetgid &&& ModeSetuid = 0 from by decide),
    (show ModeSticky &&& ModeSetuid = 0 from by decide),
    Bool.cond_self, Nat.or_zero, Nat.zero_or]

theorem mkGoMode_and_setgid (p : Nat) (su sg st : Bool) (t : Nat)
    (hp : p < 512) (ht : t &&& ModeSetgid = 0) :
    mkGoMode p su sg st t &&& ModeSetgid = cond sg ModeSetgid 0 := by
  have hp0 : p &&& ModeSetgid = 0 := and_small_mask p ModeSetgid hp (by decide)
  simp only [mkGoMode, Nat.and_distrib_right, cond_and, hp0, ht,
    (show ModeSetuid &&& ModeSetgid = 0 from by decide),
    (show ModeSetgid &&& ModeSetgid = ModeSetgid from by decide),
    (show ModeSticky &&& ModeSetgid = 0 from by decide),
    Bool.cond_self, Nat.or_zero, Nat.zero_or]

theorem mkGoMode_and_sticky (p : Nat) (su sg st : Bool) (t : Nat)
    (hp : p < 512) (ht : t &&& ModeSticky = 0) :
    mkGoMode p su sg st t &&& ModeSticky = cond st ModeSticky 0 := by
  have hp0 : p &&& ModeSticky = 0 := and_small_mask p ModeSticky hp (by decide)
  simp only [mkGoMode, Nat.and_distrib_right, cond_and, hp0, ht,
    (show ModeSetuid &&& ModeSticky = 0 from by decide),
    (show ModeSetgid &&& ModeSticky = 0 from by decide),
    (show ModeSticky &&& ModeSticky = ModeSticky from by decide),
    Bool.cond_self, Nat.or_zero, Nat.zero_or]

theorem fromFileMode_mkGoMode (p : Nat) (su sg st : Bool) (t : Nat)
    (hp : p < 512) (ht : t ∈ supportedGoTypes) :
    fromFileMode (mkGoMode p su sg st t) = mkUnixMode p su sg st (goTypeToUnix t) := by
  simp only [supportedGoTypes, List.mem_cons, List.not_mem_nil, or_false] at ht
  rcases ht with rfl | rfl | rfl | rfl | rfl | rfl | rfl <;>
  · rw [fromFileMode]
    rw [mkGoMode_and_perm p su sg st _ hp (by decide),
        mkGoMode_and_type p su sg st _ hp (by decide),
        mkGoMode_and_setuid p su sg st _ hp (by decide),
        mkGoMode_and_setgid p su sg st _ hp (by decide),
        mkGoMode_and_sticky p su sg st _ hp (by decide)]
    simp only [mkUnixMode, goTypeToUnix]
    cases su <;> cases sg <;> cases st <;>
      simp [ModeDir, ModeSymlink, ModeDevice, ModeNamedPipe, ModeSocket,
        ModeSetuid, ModeSetgid, ModeCharDevice, ModeSticky,
        S_IFBLK, S_IFCHR, S_IFDIR, S_IFIFO, S_IFLNK, S_IFREG, S_IFSOCK,
        S_ISUID, S_ISGID, S_ISVTX, Nat.or_assoc]

theorem mkUnixMode_and_perm (p : Nat) (su sg st : Bool) (t : Nat)
    (hp : p < 512) (ht : t &&& 511 = 0) :
    mkUnixMode p su sg st t &&& 511 = p := by
  have hPerm : p &&& 511 = p := and_perm_small p hp
  simp only [mkUnixMode, Nat.and_distrib_right, cond_and, hPerm, ht,
    (show S_ISUID &&& 511 = 0 from by decide),
    (show S_ISGID &&& 511 = 0 from by decide),
    (show S_ISVTX &&& 511 = 0 from by decide),
    Bool.cond_self, Nat.or_zero, Nat.zero_or]

theorem mkUnixMode_and_ifmt (p : Nat) (su sg st : Bool) (t : Nat)
    (hp : p < 512) (ht : t &&& S_IFMT = t) :
    mkUnixMode p su sg st t &&& S_IFMT = t := by
  have hp0 : p &&& S_IFMT = 0 := and_small_mask p S_IFMT hp (by decide)
  simp only [mkUnixMode, Nat.and_distrib_right, cond_and, hp0, ht,
    (show S_ISUID &&& S_IFMT = 0 from by decide),
    (show S_ISGID &&& S_IFMT = 0 from by decide),
    (show S_ISVTX &&& S_IFMT = 0 from by decide),
    Bool.cond_self, Nat.or_zero, Nat.zero_or]

theorem mkUnixMode_and_isuid (p : Nat) (su sg st : Bool) (t : Nat)
    (hp : p < 512) (ht : t &&& S_ISUID = 0) :
    mkUnixMode p su sg st t &&& S_ISUID = cond su S_ISUID 0 := by
  have hp0 : p &&& S_ISUID = 0 := and_small_mask p S_ISUID hp (by decide)
  simp only [mkUnixMode, Nat.and_distrib_right, cond_and, hp0, ht,
    (show S_ISUID &&& S_ISUID = S_ISUID from by decide),
    (show S_ISGID &&& S_ISUID = 0 from by decide),
    (show S_ISVTX &&& S_ISUID = 0 from by decide),
    Bool.cond_self, Nat.or_zero, Nat.zero_or]

theorem mkUnixMode_and_isgid (p : Nat) (su sg st : Bool) (t : Nat)
    (hp : p < 512) (ht : t &&& S_ISGID = 0) :
    mkUnixMode p su sg st t &&& S_ISGID = cond sg S_ISGID 0 := by
  have hp0 : p &&& S_ISGID = 0 := and_small_mask p S_ISGID hp (by decide)
  simp only [mkUnixMode, Nat.and_distrib_right, cond_and, hp0, ht,
    (show S_ISUID &&& S_ISGID = 0 from by decide),
    (show S_ISGID &&& S_ISGID = S_ISGID from by decide),
    (show S_ISVTX &&& S_ISGID = 0 from by decide),
    Bool.cond_self, Nat.or_zero, Nat.zero_or]

theorem mkUnixMode_and_isvtx (p : Nat) (su sg st : Bool) (t : Nat)
    (hp : p < 512) (ht : t &&& S_ISVTX = 0) :
    mkUnixMode p su sg st t &&& S_ISVTX = cond st S_ISVTX 0 := by
  have hp0 : p &&& S_ISVTX = 0 := and_small_mask p S_ISVTX hp (by decide)
  simp only [mkUnixMode, Nat.and_distrib_right, cond_and, hp0, ht,
    (show S_ISUID &&& S_ISVTX = 0 from by decide),
    (show S_ISGID &&& S_ISVTX = 0 from by decide),
    (show S_ISVTX &&& S_ISVTX = S_ISVTX from by decide),
    Bool.cond_self, Nat.or_zero, Nat.zero_or]

theorem toFileMode_mkUnixMode (p : Nat) (su sg st : Bool) (t : Nat)
    (hp : p < 512) (ht : t ∈ supportedUnixTypes) :
    toFileMode (mkUnixMode p su sg st t) = mkGoMode p su sg st (unixTypeToGo t) := by
  simp only [supportedUnixTypes, List.mem_cons, List.not_mem_nil, or_false] at ht
  rcases ht with rfl | rfl | rfl | rfl | rfl | rfl | rfl <;>
  · rw [toFileMode]
    rw [mkUnixMode_and_perm p su sg st _ hp (by decide),
        mkUnixMode_and_ifmt p su sg st _ hp (by decide),
        mkUnixMode_and_isuid p su sg st _ hp (by decide),
        mkUnixMode_and_isgid p su sg st _ hp (by decide),
        mkUnixMode_and_isvtx p su sg st _ hp (by decide)]
    simp only [mkGoMode, unixTypeToGo]
    cases su <;> cases sg <;> cases st <;>
      simp [ModeDir, ModeSymlink, ModeDevice, ModeNamedPipe, ModeSocket,
        ModeSetuid, ModeSetgid, ModeCharDevice, ModeSticky,
        S_IFBLK, S_IFCHR, S_IFDIR, S_IFIFO, S_IFLNK, S_IFREG, S_IFSOCK,
        S_ISUID, S_ISGID, S_ISVTX, Nat.or_assoc]

theorem goTypes_round : ∀ t ∈ supportedGoTypes,
    goTypeToUnix t ∈ supportedUnixTypes ∧ unixTypeToGo (goTypeToUnix t) = t := by
  decide

theorem unixTypes_round : ∀ t ∈ supportedUnixTypes,
    unixTypeToGo t ∈ supportedGoTypes ∧ goTypeToUnix (unixTypeToGo t) = t := by
  decide

/-- C8: `toFileMode` and `fromFileMode` are mutually inverse on their
valid domains — every `fs.FileMode` built from permission bits, the
setuid/setgid/sticky bits and one supported file type round-trips
through `fromFileMode` then `toFileMode`, and every POSIX mode word
built from permission bits, the three id bits and one supported
`S_IFMT` type round-trips through `toFileMode` then `fromFileMode`. -/
theorem claimC8_filemode_roundtrip :
    (∀ (p : Nat) (su sg st : Bool) (t : Nat), p < 512 → t ∈ supportedGoTypes →
      toFileMode (fromFileMode (mkGoMode p su sg st t)) = mkGoMode p su sg st t) ∧
    (∀ (p : Nat) (su sg st : Bool) (t : Nat), p < 512 → t ∈ supportedUnixTypes →
      fromFileMode (toFileMode (mkUnixMode p su sg st t)) = mkUnixMode p su sg st t) := by
  constructor
  · intro p su sg st t hp ht
    rw [fromFileMode_mkGoMode p su sg st t hp ht,
        toFileMode_mkUnixMode p su sg st _ hp (goTypes_round t ht).1,
        (goTypes_round t ht).2]
  · intro p su sg st t hp ht
    rw [toFileMode_mkUnixMode p su sg st t hp ht,
        fromFileMode_mkGoMode p su sg st _ hp (unixTypes_round t ht).1,
        (unixTypes_round t ht).2]

/-- Witness for C8 at a concrete mode: permission bits 0o644 with the
setgid bit on a directory, in both directions. -/
theorem claimC8_filemode_roundtrip_witness :
    toFileMode (fromFileMode (mkGoMode 0o644 false true false ModeDir)) =
        mkGoMode 0o644 false true false ModeDir ∧
    fromFileMode (toFileMode (mkUnixMode 0o644 false true false S_IFDIR)) =
        mkUnixMode 0o644 false true false S_IFDIR :=
  ⟨claimC8_filemode_roundtrip.1 0o644 false true false ModeDir (by decide)
      (by decide),
   claimC8_filemode_roundtrip.2 0o644 false true false S_IFDIR (by decide)
      (by decide)⟩

/- ===============================================================
   Decimal rendering: itoa is injective and never empty
   =============================================================== -/

theorem charDigit_digitChar : ∀ d, d < 10 → charDigit (Nat.digitChar d) = d := by
  decide

theorem natDigits_lt_ten : ∀ (fuel n d : Nat), d ∈ natDigits fuel n → d < 10 := by
  intro fuel
  induction fuel with
  | zero => simp [natDigits]
  | succ f ih =>
    intro n d hd
    simp only [natDigits] at hd
    split at hd
    · simp at hd
    · rcases List.mem_cons.mp hd with h1 | h2
      · subst h1
        exact Nat.mod_lt _ (by norm_num)
      · exact ih _ _ h2

theorem ofDigits_natDigits : ∀ (fuel n : Nat), n ≤ fuel →
    Nat.ofDigits 10 (natDigits fuel n) = n := by
  intro fuel
  induction fuel with
  | zero =>
    intro n hn
    have h0 : n = 0 := Nat.le_zero.mp hn
    subst h0
    simp [natDigits, Nat.ofDigits_nil]
  | succ f ih =>
    intro n hn
    by_cases h0 : n = 0
    · subst h0
      simp [natDigits, Nat.ofDigits_nil]
    · simp only [natDigits, if_neg h0, Nat.ofDigits_cons]
      have hlt : n / 10 < n := Nat.div_lt_self (Nat.pos_of_ne_zero h0) (by norm_num)
      rw [ih (n / 10) (by omega)]
      omega

theorem atoi_itoa (n : Nat) : atoi (itoa n) = n := by
  unfold itoa atoi
  split
  · rename_i h
    subst h
    decide
  · rename_i h
    show Nat.ofDigits 10
      (((((natDigits n n).map Nat.digitChar).reverse).map charDigit).reverse) = n
    rw [List.map_reverse, List.reverse_reverse, List.map_map]
    have hmap : (natDigits n n).map (charDigit ∘ Nat.digitChar) = natDigits n n := by
      have h1 : (natDigits n n).map (charDigit ∘ Nat.digitChar) =
          (natDigits n n).map id := by
        apply List.map_congr_left
        intro d hd
        exact charDigit_digitChar d (natDigits_lt_ten n n d hd)
      rw [h1, List.map_id]
    rw [hmap, ofDigits_natDigits n n (le_refl n)]

theorem itoa_injective : Function.Injective itoa := by
  intro a b hEq
  have h2 := congrArg atoi hEq
  rwa [atoi_itoa, atoi_itoa] at h2

theorem itoa_ne_empty (n : Nat) : itoa n ≠ "" := by
  unfold itoa
  split
  · decide
  · rename_i h
    intro hEq
    have hdata : (((natDigits n n).map Nat.digitChar).reverse) = [] := by
      have h3 := congrArg String.data hEq
      simpa using h3
    rcases n with _ | m
    · exact h rfl
    · simp only [natDigits, if_neg h, List.map_cons, List.reverse_cons] at hdata
      simp at hdata

/- ===============================================================
   Worker step facts
   =============================================================== -/

theorem kindOf_statusFromError (id : Nat) (err : Option GoError) :
    kindOf (statusFromError id err) = .status := by
  unfold statusFromError
  rcases err with _ | e
  · rfl
  · rcases e with e | _ | m <;> rfl

theorem request_handle_kinds (r : Request) (h : Handlers) :
    kindOf (r.handle h) ∈ ([.data, .status, .name, .attrs] : List PacketKind) := by
  unfold Request.handle
  split <;> try split
  all_goals try simp only [kindOf_statusFromError]
  all_goals simp [kindOf]

theorem request_handle_ne_handle (r : Request) (h : Handlers) (i : Nat) (hd : String) :
    r.handle h ≠ .handle i hd := by
  intro hEq
  have h3 := request_handle_kinds r h
  rw [hEq] at h3
  simp [kindOf] at h3

theorem statusFromError_ne_handle (id : Nat) (err : Option GoError) (i : Nat)
    (hd : String) : statusFromError id err ≠ .handle i hd := by
  intro hEq
  have h2 := congrArg kindOf hEq
  rw [kindOf_statusFromError] at h2
  simp [kindOf] at h2

theorem closeRequest_handleCount (rs : RSState) (hdl : String) :
    (closeRequest rs hdl).handleCount = rs.handleCount := by
  unfold closeRequest
  split <;> rfl

theorem step_opener (h : Handlers) (rs : RSState) (pkt : requestPacket) (id : Nat)
    (hop : packetOpenerInfo pkt = some id) :
    (packetWorkerStep h rs pkt).1.handleCount = rs.handleCount + 1 ∧
    (packetWorkerStep h rs pkt).2 = .handle id (itoa (rs.handleCount + 1)) := by
  cases pkt <;> simp_all [packetOpenerInfo, packetWorkerStep, nextRequest]

theorem step_count_non_opener (h : Handlers) (rs : RSState) (pkt : requestPacket)
    (hop : packetOpenerInfo pkt = none) :
    (packetWorkerStep h rs pkt).1.handleCount = rs.handleCount := by
  cases pkt <;> try exact Option.noConfusion hop
  all_goals
    simp_all only [packetOpenerInfo, packetWorkerStep, closeRequest_handleCount] <;>
      (try split) <;> rfl

theorem step_reply_not_handle (h : Handlers) (rs : RSState) (pkt : requestPacket)
    (hop : packetOpenerInfo pkt = none) :
    ∀ (i : Nat) (hd : String), (packetWorkerStep h rs pkt).2 ≠ .handle i hd := by
  cases pkt <;> try exact Option.noConfusion hop
  all_goals simp_all only [packetOpenerInfo, packetWorkerStep]
  all_goals try split
  all_goals
    simp [cleanPacketPath, statusFromError_ne_handle, request_handle_ne_handle]

/- ===============================================================
   Handle uniqueness along a worker run
   =============================================================== -/

theorem packetWorkerRun_cons (h : Handlers) (rs : RSState) (pkt : requestPacket)
    (rest : List requestPacket) :
    packetWorkerRun h rs (pkt :: rest) =
      ((packetWorkerRun h (packetWorkerStep h rs pkt).1 rest).1,
       (packetWorkerStep h rs pkt).2 ::
         (packetWorkerRun h (packetWorkerStep h rs pkt).1 rest).2) := rfl

theorem handleOfReply_eq_none (r : responsePacket)
    (hne : ∀ (i : Nat) (hd : String), r ≠ .handle i hd) :
    handleOfReply r = none := by
  cases r <;> simp_all [handleOfReply]

theorem issuedHandles_nil (h : Handlers) (rs : RSState) :
    issuedHandles h rs [] = [] := rfl

theorem issuedHandles_cons_opener (h : Handlers) (rs : RSState)
    (pkt : requestPacket) (rest : List requestPacket) (id : Nat)
    (hop : packetOpenerInfo pkt = some id) :
    issuedHandles h rs (pkt :: rest) =
      itoa (rs.handleCount + 1) ::
        issuedHandles h (packetWorkerStep h rs pkt).1 rest := by
  have hstep := step_opener h rs pkt id hop
  simp [issuedHandles, packetWorkerRun_cons, List.filterMap_cons, hstep.2,
    handleOfReply]

theorem issuedHandles_cons_non_opener (h : Handlers) (rs : RSState)
    (pkt : requestPacket) (rest : List requestPacket)
    (hop : packetOpenerInfo pkt = none) :
    issuedHandles h rs (pkt :: rest) =
      issuedHandles h (packetWorkerStep h rs pkt).1 rest := by
  have hnone := handleOfReply_eq_none _ (step_reply_not_handle h rs pkt hop)
  simp [issuedHandles, packetWorkerRun_cons, List.filterMap_cons, hnone]

theorem issuedHandles_values (h : Handlers) (pkts : List requestPacket) :
    ∀ (rs : RSState) (hd : String), hd ∈ issuedHandles h rs pkts →
      ∃ c, rs.handleCount < c ∧ hd = itoa c := by
  induction pkts with
  | nil => simp [issuedHandles_nil]
  | cons pkt rest ih =>
    intro rs hd hmem
    cases hop : packetOpenerInfo pkt with
    | some id =>
      rw [issuedHandles_cons_opener h rs pkt rest id hop] at hmem
      rcases List.mem_cons.mp hmem with h1 | h2
      · exact ⟨rs.handleCount + 1, by omega, h1⟩
      · obtain ⟨c, hc, hcv⟩ := ih _ hd h2
        rw [(step_opener h rs pkt id hop).1] at hc
        exact ⟨c, by omega, hcv⟩
    | none =>
      rw [issuedHandles_cons_non_opener h rs pkt rest hop] at hmem
      obtain ⟨c, hc, hcv⟩ := ih _ hd hmem
      rw [step_count_non_opener h rs pkt hop] at hc
      exact ⟨c, hc, hcv⟩

theorem issuedHandles_pairwise (h : Handlers) (pkts : List requestPacket) :
    ∀ rs : RSState, (issuedHandles h rs pkts).Pairwise (· ≠ ·) := by
  induction pkts with
  | nil => simp [issuedHandles_nil]
  | cons pkt rest ih =>
    intro rs
    cases hop : packetOpenerInfo pkt with
    | some id =>
      rw [issuedHandles_cons_opener h rs pkt rest id hop]
      refine List.pairwise_cons.mpr ⟨?_, ih _⟩
      intro b hb hEq
      obtain ⟨c, hc, hcv⟩ := issuedHandles_values h rest _ b hb
      rw [(step_opener h rs pkt id hop).1] at hc
      have hne : rs.handleCount + 1 = c := itoa_injective (hcv ▸ hEq)
      omega
    | none =>
      rw [issuedHandles_cons_non_opener h rs pkt rest hop]
      exact ih _

/- ===============================================================
   Claim theorems
   =============================================================== -/

theorem kindOf_version_eq (v : Nat) : kindOf (.version v) = .version := rfl

theorem kindOf_status_eq (i code : Nat) (m : String) :
    kindOf (.status i code m) = .status := rfl

theorem kindOf_data_eq (i : Nat) (d : List Nat) : kindOf (.data i d) = .data := rfl

theorem kindOf_handle_eq (i : Nat) (s : String) :
    kindOf (.handle i s) = .handle := rfl

theorem kindOf_name_eq (i : Nat) (n : List sshFxpNameAttr) :
    kindOf (.name i n) = .name := rfl

theorem kindOf_attrs_eq (i : Nat) (a : FileAttrs) :
    kindOf (.attrs i a) = .attrs := rfl

/-- C1, counterexample: the claim quantifies over every well-typed
request packet, but the worker answers the INIT packet with a VERSION
packet, which is none of the six request-reply shapes. -/
theorem claimC1_counterexample :
    isStdKind (kindOf (packetWorkerStep noopHandlers initialRSState (.initPkt 3)).2)
      = false := rfl

/-- C1 (amended): the packet worker produces and emits exactly one
response per processed request packet, and the response's discriminator
is among the shapes determined by the request's type — one of status,
data, handle, name, attrs or extended-reply for every packet except
INIT, which is answered by a VERSION packet. -/
theorem claimC1_reply_shapes :
    (∀ (h : Handlers) (rs : RSState) (pkts : List requestPacket),
      (packetWorkerRun h rs pkts).2.length = pkts.length) ∧
    (∀ (h : Handlers) (rs : RSState) (pkt : requestPacket),
      kindOf (packetWorkerStep h rs pkt).2 ∈ expectedKinds pkt) ∧
    (∀ pkt : requestPacket, isInitPkt pkt = false →
      ∀ k ∈ expectedKinds pkt, isStdKind k = true) := by
  refine ⟨?_, ?_, ?_⟩
  · intro h rs pkts
    induction pkts generalizing rs with
    | nil => rfl
    | cons pkt rest ih => simp [packetWorkerRun_cons, ih]
  · intro h rs pkt
    cases pkt
    all_goals
      simp only [packetWorkerStep, expectedKinds, cleanPacketPath, nextRequest]
    all_goals try split
    all_goals
      try simp only [requestFromPacket, updateRequest, Request.handle]
    all_goals try split
    all_goals
      simp [kindOf_statusFromError, kindOf_version_eq, kindOf_status_eq,
        kindOf_data_eq, kindOf_handle_eq, kindOf_name_eq, kindOf_attrs_eq]
  · intro pkt hinit k hk
    cases pkt <;> simp_all [isInitPkt, expectedKinds, isStdKind] <;>
      rcases hk with rfl | rfl <;> rfl

/-- C2: a handle-bearing request (FSTAT, FSETSTAT, READ, WRITE,
READDIR) whose handle is not in the open-request table is answered with
the status built from EBADF — which `translateErrno` maps to FAILURE —
without invoking the filesystem handlers and without touching the
state, and the worker goes on serving the rest of the queue. -/
theorem claimC2_unknown_handle_rejected (h : Handlers) (rs : RSState)
    (pkt : requestPacket) (id : Nat) (hdl : String)
    (hinfo : packetHandleInfo pkt = some (id, hdl))
    (hmiss : getRequest rs hdl = none) :
    (packetWorkerStep h rs pkt).2 = statusFromError id (some (.errno EBADF)) ∧
    statusCodeOf (packetWorkerStep h rs pkt).2 = some sshFxFailure ∧
    translateErrno EBADF = sshFxFailure ∧
    (packetWorkerStep h rs pkt).1 = rs ∧
    (∀ h2 : Handlers, packetWorkerStep h2 rs pkt = packetWorkerStep h rs pkt) ∧
    (∀ rest : List requestPacket,
      (packetWorkerRun h rs (pkt :: rest)).2 =
        statusFromError id (some (.errno EBADF)) :: (packetWorkerRun h rs rest).2) := by
  cases pkt <;> try exact Option.noConfusion hinfo
  all_goals
    simp only [packetHandleInfo, Option.some.injEq, Prod.mk.injEq] at hinfo
  all_goals
    obtain ⟨rfl, rfl⟩ := hinfo
  all_goals
    refine ⟨?_, ?_, rfl, ?_, ?_, ?_⟩ <;>
      simp [packetWorkerStep, packetWorkerRun_cons, hmiss, statusFromError,
        statusCodeOf, translateErrno, EBADF, ENOENT, EACCES, EPERM, sshFxFailure]

/-- Witness for C2: an FSTAT for the unknown handle `"nope"` on the
fresh server state. -/
theorem claimC2_unknown_handle_rejected_witness :
    (packetWorkerStep noopHandlers initialRSState (.fstatPkt 4 ("nope"))).2 =
        statusFromError 4 (some (.errno EBADF)) ∧
    statusCodeOf (packetWorkerStep noopHandlers initialRSState (.fstatPkt 4 ("nope"))).2 =
        some sshFxFailure :=
  ⟨(claimC2_unknown_handle_rejected noopHandlers initialRSState
      (.fstatPkt 4 ("nope")) 4 ("nope") rfl rfl).1,
   (claimC2_unknown_handle_rejected noopHandlers initialRSState
      (.fstatPkt 4 ("nope")) 4 ("nope") rfl rfl).2.1⟩

/-- C3, counterexample: a CLOSE for a handle that is not in the table
is answered with status OK (0), not FAILURE (4), because the worker
always replies `statusFromError(pkt, nil)` for CLOSE. -/
theorem claimC3_counterexample :
    statusCodeOf (packetWorkerStep noopHandlers initialRSState
        (.closePkt 5 ("h"))).2 = some sshFxOk ∧
    sshFxOk ≠ sshFxFailure := ⟨rfl, by decide⟩

/-- C3 (amended): CLOSE is idempotent in its reported outcome, but the
status it reports for an unknown handle is OK (0): the missing handle
is silently ignored and the reply is the nil-error status. -/
theorem claimC3_close_unknown_status_ok (h : Handlers) (rs : RSState)
    (id : Nat) (hdl : String) (hmiss : getRequest rs hdl = none) :
    (packetWorkerStep h rs (.closePkt id hdl)).2 = .status id sshFxOk ("") ∧
    (packetWorkerStep h rs (.closePkt id hdl)).1 = rs := by
  simp only [getRequest] at hmiss
  simp [packetWorkerStep, closeRequest, statusFromError, hmiss]

/-- Witness for C3 (amended) at the fresh state and handle `"h"`. -/
theorem claimC3_close_unknown_status_ok_witness :
    (packetWorkerStep noopHandlers initialRSState (.closePkt 5 ("h"))).2 =
      .status 5 sshFxOk ("") :=
  (claimC3_close_unknown_status_ok noopHandlers initialRSState 5 ("h") rfl).1

/-- C4, counterexample: closing handle `"1"`, whose underlying resource
fails to close (errno 5), removes the handle but replies status OK with
an empty message — the close failure is not reported to the client. -/
theorem claimC4_counterexample :
    badCloseRequest.close = some (.errno 5) ∧
    (packetWorkerStep noopHandlers stateWithBadClose
        (.closePkt 9 ("1"))).1.openRequests ("1") = none ∧
    (packetWorkerStep noopHandlers stateWithBadClose (.closePkt 9 ("1"))).2 =
        .status 9 sshFxOk ("") := ⟨rfl, rfl, rfl⟩

/-- C4 (amended): a CLOSE for a handle present in the table removes the
handle even when closing the underlying filesystem resource fails, but
the close failure is discarded: the status reply is always OK. -/
theorem claimC4_close_removes_handle (h : Handlers) (rs : RSState) (id : Nat)
    (hdl : String) (r : Request) (hfound : getRequest rs hdl = some r) :
    (packetWorkerStep h rs (.closePkt id hdl)).1.openRequests hdl = none ∧
    (packetWorkerStep h rs (.closePkt id hdl)).2 = .status id sshFxOk ("") := by
  simp only [getRequest] at hfound
  simp [packetWorkerStep, closeRequest, statusFromError, hfound]

/-- Witness for C4 (amended) at the state holding `badCloseRequest`. -/
theorem claimC4_close_removes_handle_witness :
    (packetWorkerStep noopHandlers stateWithBadClose
        (.closePkt 9 ("1"))).1.openRequests ("1") = none :=
  (claimC4_close_removes_handle noopHandlers stateWithBadClose 9 ("1")
    badCloseRequest rfl).1

/-- C5: `nextRequest` increments the handle counter and renders it in
decimal, every handle issued along a worker run is distinct from every
other handle issued in the same run, and no issued handle is the empty
string. -/
theorem claimC5_unique_handles :
    (∀ (rs : RSState) (r : Request),
      (nextRequest rs r).1 = itoa (rs.handleCount + 1) ∧
      (nextRequest rs r).2.handleCount = rs.handleCount + 1) ∧
    (∀ (h : Handlers) (rs : RSState) (pkts : List requestPacket),
      (issuedHandles h rs pkts).Pairwise (· ≠ ·)) ∧
    (∀ (h : Handlers) (rs : RSState) (pkts : List requestPacket) (hd : String),
      hd ∈ issuedHandles h rs pkts → hd ≠ "") := by
  refine ⟨fun rs r => ⟨rfl, rfl⟩, fun h rs pkts => issuedHandles_pairwise h pkts rs, ?_⟩
  intro h rs pkts hd hmem
  obtain ⟨c, _, rfl⟩ := issuedHandles_values h pkts rs hd hmem
  exact itoa_ne_empty c

/-- Witness for C5: the single OPEN of a fresh run issues handle `"1"`,
which is non-empty. -/
theorem claimC5_unique_handles_witness :
    ("1" : String) ∈
        issuedHandles noopHandlers initialRSState
          [.openPkt 1 ("/a") 0 emptyFileStat] ∧
    ("1" : String) ≠ "" :=
  ⟨by decide,
   claimC5_unique_handles.2.2 noopHandlers initialRSState
     [.openPkt 1 ("/a") 0 emptyFileStat] ("1") (by decide)⟩

/-- C6, counterexample: REALPATH of `"."` returns `"/."`, whose lexical
cleaning is `"/"` — the returned path is rooted but not lexically
clean, because `cleanPath` prefixes `"/"` after cleaning instead of
cleaning the prefixed path. -/
theorem claimC6_counterexample :
    cleanPath (".") = "/." ∧ filepathClean ("/.") = "/" ∧
    filepathClean (cleanPath (".")) ≠ cleanPath (".") := ⟨by decide, by decide, by decide⟩

/-- C6 (amended): the REALPATH reply is a single-name packet whose name
and long name are `cleanPath` of the request path, and that path always
begins with `"/"`; it is the lexical cleaning of the input prefixed
with `"/"` when the cleaned path is not already absolute, but the
result need not itself be lexically clean. -/
theorem claimC6_realpath_rooted :
    (∀ (h : Handlers) (rs : RSState) (id : Nat) (p : String),
      (packetWorkerStep h rs (.realpathPkt id p)).2 =
        .name id [⟨cleanPath p, cleanPath p, emptyFileStat⟩] ∧
      (packetWorkerStep h rs (.realpathPkt id p)).1 = rs) ∧
    (∀ p : String, hasPfx (cleanPath p) ("/") = true) := by
  refine ⟨fun h rs id p => ⟨rfl, rfl⟩, ?_⟩
  intro p
  unfold cleanPath
  rcases hPre : hasPfx (toSlash (filepathClean p)) ("/") with _ | _
  · simp only [hPre, Bool.not_false, if_pos]
    show ("/").data.isPrefixOf (("/" ++ toSlash (filepathClean p)).data) = true
    rw [String.data_append]
    simp [List.isPrefixOf]
  · simp [hPre]

/-- C7: the errno translation maps 0 to OK, ENOENT to NO_SUCH_FILE,
EACCES and EPERM to PERMISSION_DENIED, and every other nonzero errno to
FAILURE. -/
theorem claimC7_errno_translation :
    translateErrno 0 = sshFxOk ∧
    translateErrno ENOENT = sshFxNoSuchFile ∧
    translateErrno EACCES = sshFxPermissionDenied ∧
    translateErrno EPERM = sshFxPermissionDenied ∧
    ∀ e : Nat, e ≠ 0 → e ≠ ENOENT → e ≠ EACCES → e ≠ EPERM →
      translateErrno e = sshFxFailure := by
  refine ⟨by decide, by decide, by decide, by decide, ?_⟩
  intro e h0 hNoEnt hAcc hPerm
  unfold translateErrno
  rw [if_neg h0, if_neg hNoEnt, if_neg (by tauto)]

/-- Witness for C7 at errno 9 (EBADF), which maps to FAILURE. -/
theorem claimC7_errno_translation_witness :
    translateErrno 9 = sshFxFailure :=
  claimC7_errno_translation.2.2.2.2 9 (by decide) (by decide) (by decide) (by decide)

/-- C9: an OPEN or OPENDIR request is always answered with a HANDLE
packet carrying the freshly allocated handle; the reply does not depend
on the filesystem handlers, so no handler is invoked and no status
error is possible at open time. -/
theorem claimC9_open_yields_handle (h : Handlers) (rs : RSState)
    (pkt : requestPacket) (id : Nat) (hop : packetOpenerInfo pkt = some id) :
    (packetWorkerStep h rs pkt).2 = .handle id (itoa (rs.handleCount + 1)) ∧
    kindOf (packetWorkerStep h rs pkt).2 = .handle ∧
    (∀ h2 : Handlers, packetWorkerStep h2 rs pkt = packetWorkerStep h rs pkt) := by
  refine ⟨(step_opener h rs pkt id hop).2, ?_, ?_⟩
  · rw [(step_opener h rs pkt id hop).2]
    rfl
  · intro h2
    cases pkt <;> try exact Option.noConfusion hop
    all_goals rfl

/-- Witness for C9: an OPEN on the fresh state is answered with handle
`"1"`. -/
theorem claimC9_open_yields_handle_witness :
    (packetWorkerStep noopHandlers initialRSState
        (.openPkt 2 ("/f") 1 emptyFileStat)).2 = .handle 2 (itoa 1) :=
  (claimC9_open_yields_handle noopHandlers initialRSState
    (.openPkt 2 ("/f") 1 emptyFileStat) 2 rfl).1

/-- C10: an FSTAT (respectively FSETSTAT) on a handle present in the
table produces exactly the state and reply of a STAT (respectively
SETSTAT with the same flags and attrs) on the file path stored for that
handle. -/
theorem claimC10_handle_refines_path (h : Handlers) (rs : RSState) (id : Nat)
    (hdl : String) (r : Request) (hfound : getRequest rs hdl = some r) :
    packetWorkerStep h rs (.fstatPkt id hdl) =
      packetWorkerStep h rs (.statPkt id r.Filepath) ∧
    ∀ (flags : Nat) (attrs : FileAttrs),
      packetWorkerStep h rs (.fsetstatPkt id hdl flags attrs) =
        packetWorkerStep h rs (.setstatPkt id r.Filepath flags attrs) := by
  constructor
  · simp [packetWorkerStep, hfound]
  · intro flags attrs
    simp [packetWorkerStep, hfound]

/-- Witness for C10: FSTAT of handle `"1"` on the state holding
`badCloseRequest` equals STAT of the stored path `"/tmp/x"`. -/
theorem claimC10_handle_refines_path_witness :
    packetWorkerStep noopHandlers stateWithBadClose (.fstatPkt 3 ("1")) =
      packetWorkerStep noopHandlers stateWithBadClose
        (.statPkt 3 badCloseRequest.Filepath) :=
  (claimC10_handle_refines_path noopHandlers stateWithBadClose 3 ("1")
    badCloseRequest rfl).1

/-- Witness for C1 (amended): the reply kind of a concrete CLOSE is
among its expected kinds, and status is one of the six standard reply
shapes. -/
theorem claimC1_reply_shapes_witness :
    kindOf (packetWorkerStep noopHandlers initialRSState (.closePkt 1 ("h"))).2 ∈
      expectedKinds (.closePkt 1 ("h")) ∧
    isStdKind PacketKind.status = true :=
  ⟨claimC1_reply_shapes.2.1 noopHandlers initialRSState (.closePkt 1 ("h")),
   claimC1_reply_shapes.2.2 (.closePkt 1 ("h")) rfl PacketKind.status (by decide)⟩
